import Mathlib

/-!
Verification development for the AI Code Companion API (src/main.py): a
FastAPI facade that validates a prompt payload, applies a per-client rate
limit of 5 requests per 60 seconds via fastapi-limiter, forwards the prompt
to a local Ollama endpoint, and maps errors to JSON envelopes.

The embedding is shallow: the handler bodies of src/main.py become Lean
functions over explicit inputs; external interactions (the upstream HTTP
call, the counter store, wall-clock time) are passed in as arguments.
-/

namespace Intellihack

/-- JSON scalar values, as far as the service request and response bodies
need them.  The handlers in src/main.py only build and inspect flat objects
of scalars; objects are represented as association lists at the use sites. -/
inductive Json where
  | null : Json
  | bool (b : Bool) : Json
  | str (s : String) : Json
  | int (n : Int) : Json
  | num (q : Rat) : Json
deriving DecidableEq

/-- Field lookup in a JSON object represented as an association list; this is
the Python dict access used by the handlers (first binding wins). -/
def lookupField (fields : List (String × Json)) (k : String) : Option Json :=
  (fields.find? (fun p => p.1 == k)).map (fun p => p.2)

/-- The request model declared by class PromptRequest in src/main.py lines 44
to 48: prompt is a required str with no further constraint, model an
Optional str defaulting to "mistral", temperature an Optional float
defaulting to 0.7 (embedded as the rational 7/10), max_tokens an Optional
int defaulting to 1000 with no sign constraint. -/
structure PromptRequest where
  prompt : String
  model : Option String := some "mistral"
  temperature : Option Rat := some (7/10)
  max_tokens : Option Int := some 1000
deriving DecidableEq

/-- Pydantic validation of a JSON object body against PromptRequest as
declared in src/main.py: prompt must be present and a string (the empty
string is a string, so it passes); each optional field, when present, must
have the declared type, with null selecting None; a missing optional field
takes its default.  No non-empty check on prompt and no positivity check on
max_tokens appear in the source. -/
def validatePromptRequest (body : List (String × Json)) : Option PromptRequest :=
  match lookupField body "prompt" with
  | some (Json.str p) =>
    let vmodel : Option (Option String) :=
      match lookupField body "model" with
      | none => some (some "mistral")
      | some Json.null => some none
      | some (Json.str s) => some (some s)
      | some _ => none
    let vtemp : Option (Option Rat) :=
      match lookupField body "temperature" with
      | none => some (some (7/10))
      | some Json.null => some none
      | some (Json.num q) => some (some q)
      | some (Json.int n) => some (some (n : Rat))
      | some _ => none
    let vmax : Option (Option Int) :=
      match lookupField body "max_tokens" with
      | none => some (some 1000)
      | some Json.null => some none
      | some (Json.int n) => some (some n)
      | some _ => none
    match vmodel, vtemp, vmax with
    | some m, some t, some mt =>
      some { prompt := p, model := m, temperature := t, max_tokens := mt }
    | _, _, _ => none
  | _ => none

/-- Outcome of the httpx POST to the Ollama endpoint as the handler observes
it: the HTTP status code, the raw body text (response.text), and the parsed
JSON object when response.json() succeeds. -/
structure UpstreamResponse where
  status : Nat
  text : String
  json : Option (List (String × Json))
deriving DecidableEq

/-- Exceptions the handler body can raise or catch: a fastapi HTTPException
carrying a status code and detail, or any other exception carrying its
message. -/
inductive Exc where
  | http (code : Nat) (detail : String) : Exc
  | other (msg : String) : Exc
deriving DecidableEq

/-- Python str() of an exception as used by the broad except clause in
src/main.py line 114: a starlette HTTPException prints as its status code,
a colon and a space, then its detail; any other exception prints as its
message. -/
def strOfExc : Exc → String
  | Exc.http c d => toString c ++ ": " ++ d
  | Exc.other m => m

/-- An HTTP response of the generate endpoint: status code and JSON object
body. -/
structure GenResponse where
  status : Nat
  body : List (String × Json)
deriving DecidableEq

/-- The round(x, 2) applied to the processing time in src/main.py line 103,
on rationals.  Python rounds IEEE floats half-to-even; that floating-point
detail is not modelled here and no settled claim depends on it. -/
def round2 (q : Rat) : Rat := ((q * 100 + 1/2).floor : Int) / 100

/-- Python value of an Optional str field when serialised to JSON. -/
def jsonOfOptStr : Option String → Json
  | some s => Json.str s
  | none => Json.null

/-- The body of generate_code in src/main.py lines 79 to 115, reached after
the RateLimiter dependency admitted the request.  Inputs from the
environment: upstream is the transport outcome of the httpx POST (an error
message on a transport failure), jsonErr the message of the decode error
when response.json() fails, elapsed the measured wall time of the call, and
remaining the value FastAPILimiter.get_remaining reports.  A non-200
upstream status raises HTTPException 500 with detail "Ollama error: " plus
the upstream body text; the broad except clause catches every exception,
including that one, and converts it to a 500 whose detail is "Error
communicating with Ollama: " plus str() of the exception. -/
def generate_code (req : PromptRequest) (upstream : Except String UpstreamResponse)
    (jsonErr : String) (elapsed : Rat) (remaining : Nat) : GenResponse :=
  let inner : Except Exc (List (String × Json)) :=
    match upstream with
    | Except.error m => Except.error (Exc.other m)
    | Except.ok r =>
      if r.status ≠ 200 then
        Except.error (Exc.http 500 ("Ollama error: " ++ r.text))
      else
        match r.json with
        | none => Except.error (Exc.other jsonErr)
        | some result =>
          Except.ok
            [("response", (lookupField result "response").getD (Json.str "")),
             ("model", jsonOfOptStr req.model),
             ("processing_time_seconds", Json.num (round2 elapsed)),
             ("requests_remaining", Json.int (remaining : Int))]
  match inner with
  | Except.ok b => { status := 200, body := b }
  | Except.error e =>
    { status := 500,
      body := [("detail", Json.str ("Error communicating with Ollama: " ++ strOfExc e))] }

/-- Outcome of the rate gate for one request: whether the request is
admitted, and the remaining allowance. -/
structure RateDecision where
  admitted : Bool
  remaining : Nat
deriving DecidableEq

/-- Modelled from the spec: the decision procedure of the fastapi-limiter
RateLimiter dependency, whose implementation lives outside this repository.
Given the client counter value after the atomic increment for this request
and the configured limit, admit when the count is at most the limit with
remaining equal to limit minus count, and reject with remaining 0 otherwise.
The route in src/main.py line 77 configures times 5 per 1 minute. -/
def rateGate (countAfterIncrement : Nat) (limit : Nat) : RateDecision :=
  if countAfterIncrement ≤ limit then
    { admitted := true, remaining := limit - countAfterIncrement }
  else
    { admitted := false, remaining := 0 }

/-- Modelled from the spec: FastAPILimiter.get_remaining, called in
src/main.py line 104 and implemented outside this repository, reports the
configured limit minus the current counter value, never below 0 (natural
subtraction truncates at 0). -/
def get_remaining (count : Nat) (limit : Nat) : Nat := limit - count

/-- The custom 429 handler registered in src/main.py lines 51 to 56: a fixed
JSON body. -/
def rate_limit_exceeded_handler : GenResponse :=
  { status := 429,
    body := [("detail", Json.str "Too many requests. Please slow down.")] }

/-- Result of the generate route as a whole: the HTTP response together with
whether an upstream call was attempted for this request. -/
structure PipelineResult where
  response : GenResponse
  upstreamCalled : Bool
deriving DecidableEq

/-- The generate route as declared in src/main.py lines 73 to 78: the
RateLimiter dependency (times 5, minutes 1) runs before the path operation
function; when it rejects, the handler body never runs, so no upstream call
is attempted, and the registered 429 handler produces the response; when it
admits, generate_code runs, and in this sequential model the counter value
read back by get_remaining is the same count that the gate saw after its
increment. -/
def generate_pipeline (count : Nat) (req : PromptRequest)
    (upstream : Except String UpstreamResponse) (jsonErr : String)
    (elapsed : Rat) : PipelineResult :=
  let decision := rateGate count 5
  if decision.admitted then
    { response := generate_code req upstream jsonErr elapsed (get_remaining count 5),
      upstreamCalled := true }
  else
    { response := rate_limit_exceeded_handler, upstreamCalled := false }

/-- Modelled from the spec: the startup hook in src/main.py lines 34 to 41
wraps the limiter initialisation in a try block that catches every failure
and only prints, so a process state is produced whether or not the counter
store connection succeeded; per the spec, the stored limiter handle
FastAPILimiter.redis is set exactly when the connection succeeded.  The
returned Bool is that handle viewed as set or unset. -/
def startup (connectOk : Bool) : Bool := connectOk

/-- The health endpoint in src/main.py lines 119 to 127: redis_status is
"active" when the limiter handle is set and "inactive" otherwise; the
timestamp is the current wall-clock time passed in from the environment. -/
def health_check (redisSet : Bool) (now : Rat) : List (String × Json) :=
  [("status", Json.str "healthy"),
   ("ollama_configured", Json.bool true),
   ("redis_status", Json.str (if redisSet then "active" else "inactive")),
   ("timestamp", Json.num now)]

/-- The greet endpoint in src/main.py lines 68 to 70. -/
def greet_user (name : String) : List (String × Json) :=
  [("greeting", Json.str ("Hello, " ++ name ++ "! How can I assist you today?"))]

/-- C1: for every POST /generate request that the Rate Gate rejects, i.e.
whose client counter after the increment exceeds the limit of 5, the
response has status 429 with body exactly one detail field reading "Too many
requests. Please slow down.", and no upstream inference call is made for
that request. -/
theorem C1_reject_gives_429_and_no_upstream (count : Nat) (req : PromptRequest)
    (upstream : Except String UpstreamResponse) (jsonErr : String) (elapsed : Rat)
    (h : count > 5) :
    (generate_pipeline count req upstream jsonErr elapsed).response.status = 429 ∧
    (generate_pipeline count req upstream jsonErr elapsed).response.body =
      [("detail", Json.str "Too many requests. Please slow down.")] ∧
    (generate_pipeline count req upstream jsonErr elapsed).upstreamCalled = false := by
  have hn : ¬ count ≤ 5 := Nat.not_le.mpr h
  simp [generate_pipeline, rateGate, hn, rate_limit_exceeded_handler]

/-- Witness for C1 at count 6. -/
theorem C1_reject_gives_429_and_no_upstream_witness :
    6 > 5 ∧
    ((generate_pipeline 6 { prompt := "hi" }
        (Except.ok { status := 200, text := "", json := some [] }) "" 0).response.status = 429 ∧
     (generate_pipeline 6 { prompt := "hi" }
        (Except.ok { status := 200, text := "", json := some [] }) "" 0).response.body =
       [("detail", Json.str "Too many requests. Please slow down.")] ∧
     (generate_pipeline 6 { prompt := "hi" }
        (Except.ok { status := 200, text := "", json := some [] }) "" 0).upstreamCalled = false) :=
  ⟨by decide,
   C1_reject_gives_429_and_no_upstream 6 { prompt := "hi" }
     (Except.ok { status := 200, text := "", json := some [] }) "" 0 (by decide)⟩

/-- C8: the startup hook does not propagate a counter store failure (a
process state results for either outcome), and the health endpoint then
reports redis_status inactive when the connection failed and active when it
was established, together with status healthy, ollama_configured true and a
timestamp. -/
theorem C8_health_redis_status (connectOk : Bool) (now : Rat) :
    health_check (startup connectOk) now =
      [("status", Json.str "healthy"),
       ("ollama_configured", Json.bool true),
       ("redis_status", Json.str (if connectOk then "active" else "inactive")),
       ("timestamp", Json.num now)] := rfl

/-- C9: for every path parameter name, the greet endpoint returns the fixed
greeting built around that name; in particular greeting world yields the
expected sentence. -/
theorem C9_greet_format (name : String) :
    greet_user name =
      [("greeting", Json.str ("Hello, " ++ name ++ "! How can I assist you today?"))] ∧
    greet_user "world" =
      [("greeting", Json.str "Hello, world! How can I assist you today?")] :=
  ⟨rfl, rfl⟩

/-- C2: for every POST /generate request that succeeds with status 200, the
requests_remaining field equals the limit 5 minus the client counter value
after the Rate Gate increment for this request, and that value is at least
0. -/
theorem C2_remaining_on_200 (count : Nat) (req : PromptRequest)
    (r : UpstreamResponse) (result : List (String × Json)) (jsonErr : String)
    (elapsed : Rat) (hc : count ≤ 5) (hs : r.status = 200) (hj : r.json = some result) :
    (generate_pipeline count req (Except.ok r) jsonErr elapsed).response.status = 200 ∧
    lookupField (generate_pipeline count req (Except.ok r) jsonErr elapsed).response.body
        "requests_remaining" = some (Json.int ((5 - count : Nat) : Int)) ∧
    (0 : Int) ≤ ((5 - count : Nat) : Int) := by
  refine ⟨?_, ?_, Int.natCast_nonneg _⟩ <;>
    simp [generate_pipeline, rateGate, hc, generate_code, hs, hj, get_remaining, lookupField]

/-- Witness for C2 at count 3 and a well-formed upstream success. -/
theorem C2_remaining_on_200_witness :
    3 ≤ 5 ∧
    ((generate_pipeline 3 { prompt := "p" }
        (Except.ok { status := 200, text := "ok", json := some [("response", Json.str "x")] })
        "jerr" 0).response.status = 200 ∧
     lookupField (generate_pipeline 3 { prompt := "p" }
        (Except.ok { status := 200, text := "ok", json := some [("response", Json.str "x")] })
        "jerr" 0).response.body "requests_remaining" = some (Json.int ((5 - 3 : Nat) : Int)) ∧
     (0 : Int) ≤ ((5 - 3 : Nat) : Int)) :=
  ⟨by decide,
   C2_remaining_on_200 3 { prompt := "p" }
     { status := 200, text := "ok", json := some [("response", Json.str "x")] }
     [("response", Json.str "x")] "jerr" 0 (by decide) rfl rfl⟩

/-- C3: for every admitted request whose upstream status is not 200, the
endpoint responds 500 and its detail string contains "Ollama error: "
followed by the upstream body text (the broad except clause wraps the inner
HTTPException, so the detail carries a prefix before that text). -/
theorem C3_upstream_non200_gives_500 (count : Nat) (req : PromptRequest)
    (r : UpstreamResponse) (jsonErr : String) (elapsed : Rat)
    (hc : count ≤ 5) (hs : r.status ≠ 200) :
    (generate_pipeline count req (Except.ok r) jsonErr elapsed).response.status = 500 ∧
    ∃ pre, lookupField (generate_pipeline count req (Except.ok r) jsonErr elapsed).response.body
        "detail" = some (Json.str (pre ++ ("Ollama error: " ++ r.text))) := by
  refine ⟨?_, ⟨"Error communicating with Ollama: " ++ (toString 500 ++ ": "), ?_⟩⟩ <;>
    simp [generate_pipeline, rateGate, hc, generate_code, hs, strOfExc, lookupField,
      String.append_assoc]

/-- Witness for C3 at count 3 and upstream status 503 with body text boom. -/
theorem C3_upstream_non200_gives_500_witness :
    (3 ≤ 5 ∧ (503 : Nat) ≠ 200) ∧
    ((generate_pipeline 3 { prompt := "p" }
        (Except.ok { status := 503, text := "boom", json := none }) "jerr" 0).response.status
          = 500 ∧
     ∃ pre, lookupField (generate_pipeline 3 { prompt := "p" }
        (Except.ok { status := 503, text := "boom", json := none }) "jerr" 0).response.body
          "detail" = some (Json.str (pre ++ ("Ollama error: " ++ "boom")))) :=
  ⟨⟨by decide, by decide⟩,
   C3_upstream_non200_gives_500 3 { prompt := "p" }
     { status := 503, text := "boom", json := none } "jerr" 0 (by decide) (by decide)⟩

/-- C5 counterexample: a payload whose prompt is the empty string and whose
max_tokens is the negative integer minus 5 passes validation, contradicting
the claim that such payloads are rejected as validation errors.  The source
declares prompt as a plain str and max_tokens as a plain Optional int, with
no emptiness or positivity constraint. -/
theorem C5_empty_prompt_accepted :
    validatePromptRequest [("prompt", Json.str ""), ("max_tokens", Json.int (-5))] =
      some { prompt := "", model := some "mistral", temperature := some (7/10),
             max_tokens := some (-5) } := by
  simp [validatePromptRequest, lookupField, List.find?]

/-- C5 amended: validation accepts a payload exactly when prompt is present
as text, empty allowed, and the optional fields, when present, have their
declared types; in particular any integer max_tokens, including non-positive
ones, is accepted, and a payload with no prompt field is rejected. -/
theorem C5_validation_accepts_typed_payloads (s : String) (m : Int) :
    validatePromptRequest [("prompt", Json.str s), ("max_tokens", Json.int m)] =
      some { prompt := s, model := some "mistral", temperature := some (7/10),
             max_tokens := some m } ∧
    validatePromptRequest [] = none := by
  constructor
  · simp [validatePromptRequest, lookupField, List.find?]
  · rfl

/-- C6: for every admitted request whose upstream returns 200 with a JSON
body lacking a response field, the endpoint still returns 200 and the
response field of the result is the empty string. -/
theorem C6_missing_response_defaults_empty (count : Nat) (req : PromptRequest)
    (r : UpstreamResponse) (result : List (String × Json)) (jsonErr : String)
    (elapsed : Rat) (hc : count ≤ 5) (hs : r.status = 200) (hj : r.json = some result)
    (hr : lookupField result "response" = none) :
    (generate_pipeline count req (Except.ok r) jsonErr elapsed).response.status = 200 ∧
    lookupField (generate_pipeline count req (Except.ok r) jsonErr elapsed).response.body
      "response" = some (Json.str "") := by
  simp only [lookupField] at hr
  refine ⟨?_, ?_⟩ <;>
    simp [generate_pipeline, rateGate, hc, generate_code, hs, hj, lookupField, hr]

/-- Witness for C6: upstream 200 whose JSON object has only a model field. -/
theorem C6_missing_response_defaults_empty_witness :
    3 ≤ 5 ∧
    ((generate_pipeline 3 { prompt := "p" }
        (Except.ok { status := 200, text := "ok", json := some [("model", Json.str "m")] })
        "jerr" 0).response.status = 200 ∧
     lookupField (generate_pipeline 3 { prompt := "p" }
        (Except.ok { status := 200, text := "ok", json := some [("model", Json.str "m")] })
        "jerr" 0).response.body "response" = some (Json.str "")) :=
  ⟨by decide,
   C6_missing_response_defaults_empty 3 { prompt := "p" }
     { status := 200, text := "ok", json := some [("model", Json.str "m")] }
     [("model", Json.str "m")] "jerr" 0 (by decide) rfl rfl (by decide)⟩

/-- C10: for every admitted request that succeeds, the model field of the
200 response equals the model field of the incoming request, whatever model
field the upstream JSON body carries, and validation gives the default
"mistral" when the payload omits the field. -/
theorem C10_model_echoed_from_request (count : Nat) (req : PromptRequest)
    (r : UpstreamResponse) (result : List (String × Json)) (jsonErr : String)
    (elapsed : Rat) (hc : count ≤ 5) (hs : r.status = 200) (hj : r.json = some result) :
    lookupField (generate_pipeline count req (Except.ok r) jsonErr elapsed).response.body
      "model" = some (jsonOfOptStr req.model) ∧
    ∀ s : String, (validatePromptRequest [("prompt", Json.str s)]).map PromptRequest.model =
      some (some "mistral") := by
  constructor
  · simp [generate_pipeline, rateGate, hc, generate_code, hs, hj, lookupField]
  · intro s
    simp [validatePromptRequest, lookupField, List.find?]

/-- Witness for C10: the request asks for model gemma while the upstream
body carries a different model field; the response echoes gemma. -/
theorem C10_model_echoed_from_request_witness :
    3 ≤ 5 ∧
    (lookupField (generate_pipeline 3 { prompt := "p", model := some "gemma" }
        (Except.ok { status := 200, text := "ok",
                     json := some [("model", Json.str "other"), ("response", Json.str "x")] })
        "jerr" 0).response.body "model" = some (jsonOfOptStr (some "gemma")) ∧
     ∀ s : String, (validatePromptRequest [("prompt", Json.str s)]).map PromptRequest.model =
       some (some "mistral")) :=
  ⟨by decide,
   C10_model_echoed_from_request 3 { prompt := "p", model := some "gemma" }
     { status := 200, text := "ok",
       json := some [("model", Json.str "other"), ("response", Json.str "x")] }
     [("model", Json.str "other"), ("response", Json.str "x")] "jerr" 0
     (by decide) rfl rfl⟩

end Intellihack
